import Mathlib

/-!
Shallow embedding of `evgen::ActiveVolumeVertexSampler`
(larsim/EventGenerator/MARLEY/ActiveVolumeVertexSampler.{h,cxx}).

Modelling conventions:
* C++ `double` values are embedded as exact rationals (`ℚ`).
* The shared random engine (`std::mt19937_64 fTPCEngine`) is embedded as an
  abstract deterministic stream of values together with a cursor: each
  invocation of a `<random>` distribution on the engine consumes exactly one
  stream element (distribution-call granularity).  The stream stands for the
  output of the seeded generator: seeding with the same seed yields the same
  stream, since `mt19937_64` is deterministic.
* Distributions are embedded by their mathematical sampling maps:
  `uniform_real_distribution(a,b)` applied to a unit draw `u ∈ [0,1]` yields
  `a + u * (b - a)`; `normal_distribution(m,s)` applied to a standard-normal
  draw `g` yields `m + s * g`; `discrete_distribution(ws)` maps a unit draw
  to an index by the inverse cumulative weights.
* The C++ methods mutate the object in place and may throw
  (`cet::exception`).  `reconfigure` is embedded as a function returning the
  post-call object state together with `Option String`: `none` means a
  normal return, `some msg` means the exception `msg` was thrown at the
  point the source throws — the returned state then carries exactly the
  mutations performed before the throw, as in the C++ object.
-/

namespace evgen

/-- Model of ROOT's `TLorentzVector` restricted to the operations the sampler
uses: component access and the setters `SetXYZT` / `SetT`. -/
structure TLorentzVector where
  X : ℚ
  Y : ℚ
  Z : ℚ
  T : ℚ
deriving DecidableEq, Repr

/-- `TLorentzVector::SetXYZT(x, y, z, t)`: overwrite all four components. -/
def TLorentzVector.SetXYZT (_v : TLorentzVector) (x y z t : ℚ) : TLorentzVector :=
  ⟨x, y, z, t⟩

/-- `TLorentzVector::SetT(t)`: overwrite only the time component. -/
def TLorentzVector.SetT (v : TLorentzVector) (t : ℚ) : TLorentzVector :=
  { v with T := t }

/-- Model of one TPC's active-volume box and active mass, i.e. the part of
`geo::TPCGeo` that `reconfigure` and `sample_vertex_pos` query:
`MinX/MaxX/MinY/MaxY/MinZ/MaxZ` and `ActiveMass`. -/
structure TPCGeo where
  MinX : ℚ
  MaxX : ℚ
  MinY : ℚ
  MaxY : ℚ
  MinZ : ℚ
  MaxZ : ℚ
  ActiveMass : ℚ
deriving DecidableEq, Repr

instance : Inhabited TPCGeo :=
  ⟨⟨0, 0, 0, 0, 0, 0, 0⟩⟩

/-- Model of `geo::Geometry` as the ordered list of its TPCs
(`NTPC()` is the length, `TPC(i)` indexes into it). -/
abbrev Geometry := List TPCGeo

/-- `geo::Geometry::NTPC()`. -/
def Geometry.NTPC (g : Geometry) : ℕ := g.length

/-- `geo::Geometry::TPC(i)`. -/
def Geometry.TPC (g : Geometry) (i : ℕ) : TPCGeo := g.getD i default

/-- A `fhicl::Sequence<double, 3>` value (exactly three doubles). -/
structure Vec3 where
  c0 : ℚ
  c1 : ℚ
  c2 : ℚ
deriving DecidableEq, Repr

/-- `std::vector<double>::at(i)` on the three-element sequence
(the source only ever calls it with indices 0, 1, 2 in range). -/
def Vec3.get (v : Vec3) : ℕ → ℚ
  | 0 => v.c0
  | 1 => v.c1
  | _ => v.c2

/-- The fields of `ActiveVolumeVertexSampler::Config` that `reconfigure`
reads.  (`seed_` is consumed by the constructor's seed service, modelled as
the engine stream; `min_position_`, `max_position_`, `check_active_` are
reserved for the unimplemented `"box"` mode and are never read.) -/
structure Config where
  type_ : String
  position_ : Vec3
  T0_ : ℚ
  SigmaT_ : ℚ
  time_type_ : String
deriving DecidableEq, Repr

/-- `enum class vertex_type_t { kSampled, kFixed }`. -/
inductive vertex_type_t where
  | kSampled
  | kFixed
deriving DecidableEq, Repr

/-- `enum class time_type_t { kUniform, kGaussian }`. -/
inductive time_type_t where
  | kUniform
  | kGaussian
deriving DecidableEq, Repr

/-- The shared random engine `fTPCEngine`: an abstract output stream (a
function of the seed) plus the number of distribution draws already made. -/
structure Engine where
  stream : ℕ → ℚ
  pos : ℕ

/-- Sampling map of `std::uniform_real_distribution<double>(a, b)` on a unit
draw `u`: the value `a + u * (b - a)`. -/
def uniformReal (a b u : ℚ) : ℚ := a + u * (b - a)

/-- Sampling map of `std::normal_distribution<double>(mean, sigma)` on a
standard-normal draw `g`: the value `mean + sigma * g`. -/
def normalSample (mean sigma g : ℚ) : ℚ := mean + sigma * g

/-- Inverse-CDF walk of `std::discrete_distribution`: given the weight list
and a target in `[0, Σ weights)`, return the first index whose cumulative
weight exceeds the target (clamped to the last index). -/
def discreteSelectAux : List ℚ → ℚ → ℕ
  | [], _ => 0
  | [_], _ => 0
  | w :: rest, t => if t < w then 0 else discreteSelectAux rest (t - w) + 1

/-- Sampling map of `std::discrete_distribution<size_t>(ws)` on a unit
draw `u`. -/
def discreteSelect (weights : List ℚ) (u : ℚ) : ℕ :=
  discreteSelectAux weights (u * weights.sum)

/-- The time draw of `sample_vertex_pos` (source lines 86-97): a fresh
`normal_distribution(fT0, fSigmaT)` draw in Gaussian mode, otherwise a
`uniform_real_distribution(fT0 - fSigmaT, fT0 + fSigmaT)` draw. -/
def timeSample (mode : time_type_t) (t0 sigma u : ℚ) : ℚ :=
  if mode = time_type_t.kGaussian then normalSample t0 sigma u
  else uniformReal (t0 - sigma) (t0 + sigma) u

/-- The mutable state of an `ActiveVolumeVertexSampler` object (its data
members, minus the name string and the engine, which is passed separately). -/
structure ActiveVolumeVertexSampler where
  fVertexPosition : TLorentzVector
  fVertexType : vertex_type_t
  fTimeType : time_type_t
  fT0 : ℚ
  fSigmaT : ℚ
  fTPCDist : Option (List ℚ)
deriving DecidableEq, Repr

/-- Member initialisation performed by the constructor before `reconfigure`
runs: `fVertexType = kSampled`, `fT0 = 0`, `fSigmaT = 0`,
`fTPCDist = nullptr`; `fVertexPosition` is a default `TLorentzVector` and
`fTimeType` is left uninitialised in C++ (it is always assigned by
`reconfigure` before any use; we pick `kUniform` as its placeholder). -/
def initState : ActiveVolumeVertexSampler :=
  { fVertexPosition := ⟨0, 0, 0, 0⟩
    fVertexType := vertex_type_t.kSampled
    fTimeType := time_type_t.kUniform
    fT0 := 0
    fSigmaT := 0
    fTPCDist := none }

/-- The tail of `reconfigure` (source lines 147-155): dispatch on
`time_type` — throwing on an unrecognised value — then store `T0` and
`SigmaT`.  Note the source performs no validation of `SigmaT`. -/
def reconfigureTime (conf : Config) (s : ActiveVolumeVertexSampler) :
    ActiveVolumeVertexSampler × Option String :=
  if conf.time_type_ = "uniform" then
    ({ s with fTimeType := time_type_t.kUniform
              fT0 := conf.T0_
              fSigmaT := conf.SigmaT_ }, none)
  else if conf.time_type_ = "gaussian" then
    ({ s with fTimeType := time_type_t.kGaussian
              fT0 := conf.T0_
              fSigmaT := conf.SigmaT_ }, none)
  else (s, some "Invalid vertex time type")

/-- `ActiveVolumeVertexSampler::reconfigure` (source lines 108-156).
Returns the post-call object state and `some msg` when the source throws at
that point (the state then holds every mutation made before the throw).
Note: in the `"fixed"` branch the source reads `vertex_pos.at(0)` for all
three of `Vx`, `Vy`, `Vz` (lines 137-139). -/
def reconfigure (conf : Config) (geom : Geometry) (s : ActiveVolumeVertexSampler) :
    ActiveVolumeVertexSampler × Option String :=
  if conf.type_ = "sampled" then
    let tpc_masses := geom.map TPCGeo.ActiveMass
    let s := { s with fVertexType := vertex_type_t.kSampled
                      fTPCDist := some tpc_masses }
    reconfigureTime conf s
  else if conf.type_ = "fixed" then
    let Vx := conf.position_.get 0
    let Vy := conf.position_.get 0
    let Vz := conf.position_.get 0
    let s := { s with fVertexType := vertex_type_t.kFixed
                      fVertexPosition := s.fVertexPosition.SetXYZT Vx Vy Vz 0 }
    reconfigureTime conf s
  else (s, some "Invalid vertex type")

/-- `ActiveVolumeVertexSampler::sample_vertex_pos` (source lines 49-105).
In Sampled mode the call consumes five draws in order: the TPC index
(line 56), then `x`, `y`, `z` (lines 72-74), then the time (lines 86-97);
in Fixed mode it consumes only the time draw.  Returns the returned
4-vector, the post-call object state, and the post-call engine. -/
def sample_vertex_pos (geom : Geometry) (s : ActiveVolumeVertexSampler)
    (eng : Engine) : TLorentzVector × ActiveVolumeVertexSampler × Engine :=
  if s.fVertexType = vertex_type_t.kSampled then
    let tpc_index := discreteSelect (s.fTPCDist.getD []) (eng.stream eng.pos)
    let tpc := geom.TPC tpc_index
    let x := uniformReal tpc.MinX tpc.MaxX (eng.stream (eng.pos + 1))
    let y := uniformReal tpc.MinY tpc.MaxY (eng.stream (eng.pos + 2))
    let z := uniformReal tpc.MinZ tpc.MaxZ (eng.stream (eng.pos + 3))
    let t := timeSample s.fTimeType s.fT0 s.fSigmaT (eng.stream (eng.pos + 4))
    let v := (s.fVertexPosition.SetXYZT x y z 0).SetT t
    (v, { s with fVertexPosition := v }, ⟨eng.stream, eng.pos + 5⟩)
  else
    let t := timeSample s.fTimeType s.fT0 s.fSigmaT (eng.stream eng.pos)
    let v := s.fVertexPosition.SetT t
    (v, { s with fVertexPosition := v }, ⟨eng.stream, eng.pos + 1⟩)

/-- Constructing a sampler (constructor, source lines 13-46): initialise the
members, run `reconfigure`, and propagate its exception (a throwing
constructor yields no object, hence `none`). -/
def mkSampler (conf : Config) (geom : Geometry) :
    Option ActiveVolumeVertexSampler :=
  match reconfigure conf geom initState with
  | (s, none) => some s
  | (_, some _) => none

/-- The sequence of vertices returned by `n` successive calls to
`sample_vertex_pos` on one sampler object. -/
def sampleSequence (geom : Geometry) (s : ActiveVolumeVertexSampler)
    (eng : Engine) : ℕ → List TLorentzVector
  | 0 => []
  | n + 1 =>
    let r := sample_vertex_pos geom s eng
    r.1 :: sampleSequence geom r.2.1 r.2.2 n

/-- One full run: construct a sampler from a configuration and a geometry,
seed the engine (`stream` is the seeded generator's output stream), and call
`sample_vertex_pos` `n` times.  `none` when construction throws. -/
def runSampler (conf : Config) (geom : Geometry) (stream : ℕ → ℚ) (n : ℕ) :
    Option (List TLorentzVector) :=
  (mkSampler conf geom).map (fun s => sampleSequence geom s ⟨stream, 0⟩ n)

/-! ### Concrete fixtures used by the witnesses and counterexamples -/

/-- A fixed-mode configuration with three distinct position components. -/
def cfgFixed123 : Config :=
  { type_ := "fixed", position_ := ⟨1, 2, 3⟩, T0_ := 5, SigmaT_ := 1,
    time_type_ := "uniform" }

/-- Like `cfgFixed123` but with different second and third position
components. -/
def cfgFixed199 : Config :=
  { type_ := "fixed", position_ := ⟨1, 9, 9⟩, T0_ := 5, SigmaT_ := 1,
    time_type_ := "uniform" }

/-- A geometry with one TPC spanning the box [0,10]³ with active mass 1. -/
def geomOne : Geometry :=
  [⟨0, 10, 0, 10, 0, 10, 1⟩]

/-- A geometry whose TPCs all have zero active mass. -/
def geomZeroMass : Geometry :=
  [⟨0, 10, 0, 10, 0, 10, 0⟩, ⟨20, 30, 0, 10, 0, 10, 0⟩]

/-- A sampled-mode configuration with a recognised time type. -/
def cfgSampled : Config :=
  { type_ := "sampled", position_ := ⟨0, 0, 0⟩, T0_ := 0, SigmaT_ := 1,
    time_type_ := "uniform" }

/-- A sampled-mode configuration with a negative SigmaT. -/
def cfgNegSigma : Config :=
  { type_ := "sampled", position_ := ⟨0, 0, 0⟩, T0_ := 0, SigmaT_ := -1,
    time_type_ := "uniform" }

/-- A sampled-mode configuration whose time type is the unrecognised string
"exponential". -/
def cfgExponential : Config :=
  { type_ := "sampled", position_ := ⟨0, 0, 0⟩, T0_ := 4, SigmaT_ := 5,
    time_type_ := "exponential" }

/-- A previously configured sampler in Fixed mode (the state left by a
successful fixed-mode configuration with position (7,7,7), T0 = 2,
SigmaT = 3). -/
def priorFixedState : ActiveVolumeVertexSampler :=
  { fVertexPosition := ⟨7, 7, 7, 0⟩
    fVertexType := vertex_type_t.kFixed
    fTimeType := time_type_t.kUniform
    fT0 := 2
    fSigmaT := 3
    fTPCDist := none }

/-- A configured sampler in Sampled mode over `geomOne`. -/
def sampledState : ActiveVolumeVertexSampler :=
  { fVertexPosition := ⟨0, 0, 0, 0⟩
    fVertexType := vertex_type_t.kSampled
    fTimeType := time_type_t.kUniform
    fT0 := 0
    fSigmaT := 1
    fTPCDist := some [1] }

/-- A configured sampler in Fixed mode with Gaussian times and zero spread. -/
def gaussZeroSpreadState : ActiveVolumeVertexSampler :=
  { fVertexPosition := ⟨0, 0, 0, 0⟩
    fVertexType := vertex_type_t.kFixed
    fTimeType := time_type_t.kGaussian
    fT0 := 7
    fSigmaT := 0
    fTPCDist := none }

/-- A concrete engine whose stream emits k/10 at position k. -/
def engLin : Engine :=
  ⟨fun k => (k : ℚ) / 10, 0⟩

/-! ### Claims -/

/-- Claim C1: in Fixed mode, every call to sample_vertex_pos after a
successful configuration with position (px, py, pz) is claimed to return
(x, y, z) = (px, py, pz).  The code instead reads position.at(0) for all
three axes (source lines 137-139), so a configuration with position
(1, 2, 3) succeeds but caches and returns the vertex (1, 1, 1): the spec is
the intent (its design notes flag this as a coordinate-assignment defect)
and the code is a slip. -/
theorem C1_fixed_position_code_bug :
    (reconfigure cfgFixed123 geomOne initState).2 = none ∧
    (reconfigure cfgFixed123 geomOne initState).1.fVertexPosition = ⟨1, 1, 1, 0⟩ ∧
    (sample_vertex_pos geomOne (reconfigure cfgFixed123 geomOne initState).1
      engLin).1.X = 1 ∧
    (sample_vertex_pos geomOne (reconfigure cfgFixed123 geomOne initState).1
      engLin).1.Y = 1 ∧
    (sample_vertex_pos geomOne (reconfigure cfgFixed123 geomOne initState).1
      engLin).1.Z = 1 := by
  decide

/-- Claim C2 counterexample: reconfiguring an already-configured sampler
with a valid vertex type but the unrecognised time type "exponential" does
throw, yet the vertex mode and the cell distribution have already been
overwritten before the throw, so the previously valid state is not left
unchanged. -/
theorem C2_counterexample :
    (reconfigure cfgExponential geomOne priorFixedState).2.isSome = true ∧
    (reconfigure cfgExponential geomOne priorFixedState).1.fVertexType ≠
      priorFixedState.fVertexType ∧
    (reconfigure cfgExponential geomOne priorFixedState).1.fTPCDist ≠
      priorFixedState.fTPCDist := by
  decide

/-- Claim C2 (amended): configuring with an unrecognised time_type string
raises the configuration exception and leaves the time-related state
(fTimeType, fT0, fSigmaT) unchanged — but only that state: the vertex-type
branch has already run, so the vertex mode and the cached fixed position or
cell distribution may have been overwritten before the throw. -/
theorem C2_amended (conf : Config) (geom : Geometry)
    (s : ActiveVolumeVertexSampler)
    (h1 : conf.time_type_ ≠ "uniform") (h2 : conf.time_type_ ≠ "gaussian") :
    (reconfigure conf geom s).2.isSome = true ∧
    (reconfigure conf geom s).1.fTimeType = s.fTimeType ∧
    (reconfigure conf geom s).1.fT0 = s.fT0 ∧
    (reconfigure conf geom s).1.fSigmaT = s.fSigmaT := by
  unfold reconfigure reconfigureTime
  split_ifs with hs hf <;> simp_all

/-- Witness for C2_amended at the concrete counterexample input. -/
theorem C2_amended_witness :
    (reconfigure cfgExponential geomOne priorFixedState).2.isSome = true ∧
    (reconfigure cfgExponential geomOne priorFixedState).1.fTimeType =
      priorFixedState.fTimeType ∧
    (reconfigure cfgExponential geomOne priorFixedState).1.fT0 =
      priorFixedState.fT0 ∧
    (reconfigure cfgExponential geomOne priorFixedState).1.fSigmaT =
      priorFixedState.fSigmaT :=
  C2_amended cfgExponential geomOne priorFixedState (by decide) (by decide)

/-- Claim C3 counterexample: with a catalog whose cells all have zero active
mass, a sampled-mode configuration succeeds (no exception, a constructed
sampler), so configure does not fail with a configuration error at rebuild
time as the claim requires. -/
theorem C3_counterexample :
    (reconfigure cfgSampled geomZeroMass initState).2 = none ∧
    (mkSampler cfgSampled geomZeroMass).isSome = true := by
  decide

/-- Claim C3 (amended): in Sampled mode with a recognised time type,
configure performs no total-mass validation at all: it succeeds for every
cell catalog — including one whose weights are all zero — and stores the
weight list unchanged; no configuration error is raised at rebuild time. -/
theorem C3_amended (conf : Config) (geom : Geometry)
    (s : ActiveVolumeVertexSampler)
    (hty : conf.type_ = "sampled")
    (htt : conf.time_type_ = "uniform" ∨ conf.time_type_ = "gaussian") :
    (reconfigure conf geom s).2 = none ∧
    (reconfigure conf geom s).1.fTPCDist = some (geom.map TPCGeo.ActiveMass) := by
  rcases htt with htt | htt <;>
    simp [reconfigure, reconfigureTime, hty, htt]

/-- Witness for C3_amended at the all-zero-mass catalog. -/
theorem C3_amended_witness :
    (reconfigure cfgSampled geomZeroMass initState).2 = none ∧
    (reconfigure cfgSampled geomZeroMass initState).1.fTPCDist =
      some (geomZeroMass.map TPCGeo.ActiveMass) :=
  C3_amended cfgSampled geomZeroMass initState (by decide) (Or.inl (by decide))

/-- Claim C4 counterexample: a configuration with SigmaT = -1 is accepted:
reconfigure raises no exception and stores the negative spread. -/
theorem C4_counterexample :
    (reconfigure cfgNegSigma geomOne initState).2 = none ∧
    (reconfigure cfgNegSigma geomOne initState).1.fSigmaT = -1 := by
  decide

/-- Claim C4 (amended): configure performs no range validation on SigmaT:
for any recognised vertex type and time type it succeeds and stores SigmaT
verbatim, negative values included; a negative t_spread is never rejected. -/
theorem C4_amended (conf : Config) (geom : Geometry)
    (s : ActiveVolumeVertexSampler)
    (hty : conf.type_ = "sampled" ∨ conf.type_ = "fixed")
    (htt : conf.time_type_ = "uniform" ∨ conf.time_type_ = "gaussian") :
    (reconfigure conf geom s).2 = none ∧
    (reconfigure conf geom s).1.fSigmaT = conf.SigmaT_ := by
  rcases hty with hty | hty <;> rcases htt with htt | htt <;>
    simp [reconfigure, reconfigureTime, hty, htt]

/-- Witness for C4_amended at the negative-SigmaT configuration. -/
theorem C4_amended_witness :
    (reconfigure cfgNegSigma geomOne initState).2 = none ∧
    (reconfigure cfgNegSigma geomOne initState).1.fSigmaT =
      cfgNegSigma.SigmaT_ :=
  C4_amended cfgNegSigma geomOne initState (Or.inl (by decide))
    (Or.inl (by decide))

/-- Claim C5: for a fixed seed (hence a fixed engine output stream), a fixed
cell catalog and a fixed configuration, two independent runs that each
construct a sampler and call sample_vertex_pos n times produce identical
sequences of output vertices: the run is a pure function of those inputs,
with no other state influencing any output. -/
theorem C5_determinism (c1 c2 : Config) (g1 g2 : Geometry)
    (s1 s2 : ℕ → ℚ) (n : ℕ)
    (hc : c1 = c2) (hg : g1 = g2) (hs : s1 = s2) :
    runSampler c1 g1 s1 n = runSampler c2 g2 s2 n := by
  rw [hc, hg, hs]

/-- Witness for C5_determinism: two three-call runs from the same seed
stream, catalog and configuration coincide. -/
theorem C5_determinism_witness :
    runSampler cfgSampled geomOne (fun k => (k : ℚ) / 10) 3 =
      runSampler cfgSampled geomOne (fun k => (k : ℚ) / 10) 3 :=
  C5_determinism cfgSampled cfgSampled geomOne geomOne
    (fun k => (k : ℚ) / 10) (fun k => (k : ℚ) / 10) 3 rfl rfl rfl

/-- Claim C6: in Sampled mode one call consumes exactly five draws, in
order: the cell index from stream position p, x from p+1, y from p+2, z
from p+3, and the time from p+4 — the time draw last, consuming exactly
one draw; in Fixed mode the call consumes exactly the single time draw,
from position p. -/
theorem C6_draw_order (geom : Geometry) (s : ActiveVolumeVertexSampler)
    (eng : Engine) :
    (s.fVertexType = vertex_type_t.kSampled →
      (sample_vertex_pos geom s eng).2.2.pos = eng.pos + 5 ∧
      (sample_vertex_pos geom s eng).1.X =
        uniformReal
          (geom.TPC (discreteSelect (s.fTPCDist.getD [])
            (eng.stream eng.pos))).MinX
          (geom.TPC (discreteSelect (s.fTPCDist.getD [])
            (eng.stream eng.pos))).MaxX
          (eng.stream (eng.pos + 1)) ∧
      (sample_vertex_pos geom s eng).1.Y =
        uniformReal
          (geom.TPC (discreteSelect (s.fTPCDist.getD [])
            (eng.stream eng.pos))).MinY
          (geom.TPC (discreteSelect (s.fTPCDist.getD [])
            (eng.stream eng.pos))).MaxY
          (eng.stream (eng.pos + 2)) ∧
      (sample_vertex_pos geom s eng).1.Z =
        uniformReal
          (geom.TPC (discreteSelect (s.fTPCDist.getD [])
            (eng.stream eng.pos))).MinZ
          (geom.TPC (discreteSelect (s.fTPCDist.getD [])
            (eng.stream eng.pos))).MaxZ
          (eng.stream (eng.pos + 3)) ∧
      (sample_vertex_pos geom s eng).1.T =
        timeSample s.fTimeType s.fT0 s.fSigmaT (eng.stream (eng.pos + 4))) ∧
    (s.fVertexType = vertex_type_t.kFixed →
      (sample_vertex_pos geom s eng).2.2.pos = eng.pos + 1 ∧
      (sample_vertex_pos geom s eng).1.T =
        timeSample s.fTimeType s.fT0 s.fSigmaT (eng.stream eng.pos)) := by
  constructor
  · intro h
    simp [sample_vertex_pos, h, TLorentzVector.SetXYZT, TLorentzVector.SetT]
  · intro h
    simp [sample_vertex_pos, h, TLorentzVector.SetT]

/-- Witness for C6_draw_order at a concrete Sampled-mode sampler and a
concrete Fixed-mode sampler. -/
theorem C6_draw_order_witness :
    ((sample_vertex_pos geomOne sampledState engLin).2.2.pos =
        engLin.pos + 5 ∧
      (sample_vertex_pos geomOne sampledState engLin).1.X =
        uniformReal
          (geomOne.TPC (discreteSelect (sampledState.fTPCDist.getD [])
            (engLin.stream engLin.pos))).MinX
          (geomOne.TPC (discreteSelect (sampledState.fTPCDist.getD [])
            (engLin.stream engLin.pos))).MaxX
          (engLin.stream (engLin.pos + 1)) ∧
      (sample_vertex_pos geomOne sampledState engLin).1.Y =
        uniformReal
          (geomOne.TPC (discreteSelect (sampledState.fTPCDist.getD [])
            (engLin.stream engLin.pos))).MinY
          (geomOne.TPC (discreteSelect (sampledState.fTPCDist.getD [])
            (engLin.stream engLin.pos))).MaxY
          (engLin.stream (engLin.pos + 2)) ∧
      (sample_vertex_pos geomOne sampledState engLin).1.Z =
        uniformReal
          (geomOne.TPC (discreteSelect (sampledState.fTPCDist.getD [])
            (engLin.stream engLin.pos))).MinZ
          (geomOne.TPC (discreteSelect (sampledState.fTPCDist.getD [])
            (engLin.stream engLin.pos))).MaxZ
          (engLin.stream (engLin.pos + 3)) ∧
      (sample_vertex_pos geomOne sampledState engLin).1.T =
        timeSample sampledState.fTimeType sampledState.fT0
          sampledState.fSigmaT (engLin.stream (engLin.pos + 4))) ∧
    ((sample_vertex_pos geomOne priorFixedState engLin).2.2.pos =
        engLin.pos + 1 ∧
      (sample_vertex_pos geomOne priorFixedState engLin).1.T =
        timeSample priorFixedState.fTimeType priorFixedState.fT0
          priorFixedState.fSigmaT (engLin.stream engLin.pos)) :=
  ⟨(C6_draw_order geomOne sampledState engLin).1 rfl,
   (C6_draw_order geomOne priorFixedState engLin).2 rfl⟩

/-- The uniform sampling map lands in the closed interval when its bounds
are ordered and the draw lies in the unit interval. -/
theorem uniformReal_mem (a b u : ℚ) (hab : a ≤ b) (h0 : 0 ≤ u) (h1 : u ≤ 1) :
    a ≤ uniformReal a b u ∧ uniformReal a b u ≤ b := by
  unfold uniformReal
  constructor
  · nlinarith
  · nlinarith

/-- Claim C7: in Sampled mode, if c is the cell the call selects, the
returned coordinates lie within c's box on every axis, and a degenerate
axis with min = max yields exactly that value. -/
theorem C7_bounds (geom : Geometry) (s : ActiveVolumeVertexSampler)
    (eng : Engine) (c : TPCGeo)
    (hmode : s.fVertexType = vertex_type_t.kSampled)
    (hc : geom.TPC (discreteSelect (s.fTPCDist.getD [])
      (eng.stream eng.pos)) = c)
    (hx : c.MinX ≤ c.MaxX) (hy : c.MinY ≤ c.MaxY) (hz : c.MinZ ≤ c.MaxZ)
    (hux0 : 0 ≤ eng.stream (eng.pos + 1)) (hux1 : eng.stream (eng.pos + 1) ≤ 1)
    (huy0 : 0 ≤ eng.stream (eng.pos + 2)) (huy1 : eng.stream (eng.pos + 2) ≤ 1)
    (huz0 : 0 ≤ eng.stream (eng.pos + 3)) (huz1 : eng.stream (eng.pos + 3) ≤ 1) :
    (c.MinX ≤ (sample_vertex_pos geom s eng).1.X ∧
      (sample_vertex_pos geom s eng).1.X ≤ c.MaxX) ∧
    (c.MinY ≤ (sample_vertex_pos geom s eng).1.Y ∧
      (sample_vertex_pos geom s eng).1.Y ≤ c.MaxY) ∧
    (c.MinZ ≤ (sample_vertex_pos geom s eng).1.Z ∧
      (sample_vertex_pos geom s eng).1.Z ≤ c.MaxZ) ∧
    (c.MinX = c.MaxX → (sample_vertex_pos geom s eng).1.X = c.MinX) ∧
    (c.MinY = c.MaxY → (sample_vertex_pos geom s eng).1.Y = c.MinY) ∧
    (c.MinZ = c.MaxZ → (sample_vertex_pos geom s eng).1.Z = c.MinZ) := by
  have hX : (sample_vertex_pos geom s eng).1.X =
      uniformReal c.MinX c.MaxX (eng.stream (eng.pos + 1)) := by
    simp [sample_vertex_pos, hmode, hc, TLorentzVector.SetXYZT,
      TLorentzVector.SetT]
  have hY : (sample_vertex_pos geom s eng).1.Y =
      uniformReal c.MinY c.MaxY (eng.stream (eng.pos + 2)) := by
    simp [sample_vertex_pos, hmode, hc, TLorentzVector.SetXYZT,
      TLorentzVector.SetT]
  have hZ : (sample_vertex_pos geom s eng).1.Z =
      uniformReal c.MinZ c.MaxZ (eng.stream (eng.pos + 3)) := by
    simp [sample_vertex_pos, hmode, hc, TLorentzVector.SetXYZT,
      TLorentzVector.SetT]
  have bx := uniformReal_mem c.MinX c.MaxX _ hx hux0 hux1
  have bby := uniformReal_mem c.MinY c.MaxY _ hy huy0 huy1
  have bz := uniformReal_mem c.MinZ c.MaxZ _ hz huz0 huz1
  rw [hX, hY, hZ]
  refine ⟨bx, bby, bz, ?_, ?_, ?_⟩
  · intro hdeg
    linarith [bx.1, bx.2]
  · intro hdeg
    linarith [bby.1, bby.2]
  · intro hdeg
    linarith [bz.1, bz.2]

/-- Witness for C7_bounds at the concrete one-TPC geometry, a Sampled-mode
sampler and the linear engine stream. -/
theorem C7_bounds_witness :
    ((⟨0, 10, 0, 10, 0, 10, 1⟩ : TPCGeo).MinX ≤
        (sample_vertex_pos geomOne sampledState engLin).1.X ∧
      (sample_vertex_pos geomOne sampledState engLin).1.X ≤
        (⟨0, 10, 0, 10, 0, 10, 1⟩ : TPCGeo).MaxX) ∧
    ((⟨0, 10, 0, 10, 0, 10, 1⟩ : TPCGeo).MinY ≤
        (sample_vertex_pos geomOne sampledState engLin).1.Y ∧
      (sample_vertex_pos geomOne sampledState engLin).1.Y ≤
        (⟨0, 10, 0, 10, 0, 10, 1⟩ : TPCGeo).MaxY) ∧
    ((⟨0, 10, 0, 10, 0, 10, 1⟩ : TPCGeo).MinZ ≤
        (sample_vertex_pos geomOne sampledState engLin).1.Z ∧
      (sample_vertex_pos geomOne sampledState engLin).1.Z ≤
        (⟨0, 10, 0, 10, 0, 10, 1⟩ : TPCGeo).MaxZ) ∧
    ((⟨0, 10, 0, 10, 0, 10, 1⟩ : TPCGeo).MinX =
        (⟨0, 10, 0, 10, 0, 10, 1⟩ : TPCGeo).MaxX →
      (sample_vertex_pos geomOne sampledState engLin).1.X =
        (⟨0, 10, 0, 10, 0, 10, 1⟩ : TPCGeo).MinX) ∧
    ((⟨0, 10, 0, 10, 0, 10, 1⟩ : TPCGeo).MinY =
        (⟨0, 10, 0, 10, 0, 10, 1⟩ : TPCGeo).MaxY →
      (sample_vertex_pos geomOne sampledState engLin).1.Y =
        (⟨0, 10, 0, 10, 0, 10, 1⟩ : TPCGeo).MinY) ∧
    ((⟨0, 10, 0, 10, 0, 10, 1⟩ : TPCGeo).MinZ =
        (⟨0, 10, 0, 10, 0, 10, 1⟩ : TPCGeo).MaxZ →
      (sample_vertex_pos geomOne sampledState engLin).1.Z =
        (⟨0, 10, 0, 10, 0, 10, 1⟩ : TPCGeo).MinZ) :=
  C7_bounds geomOne sampledState engLin ⟨0, 10, 0, 10, 0, 10, 1⟩ rfl
    (by simp [Geometry.TPC, geomOne, sampledState, discreteSelect,
      discreteSelectAux])
    (by norm_num) (by norm_num) (by norm_num)
    (by norm_num [engLin]) (by norm_num [engLin])
    (by norm_num [engLin]) (by norm_num [engLin])
    (by norm_num [engLin]) (by norm_num [engLin])

/-- Claim C8: with zero t_spread stored, every call returns time exactly
t_center, in both time modes (the Gaussian draw is scaled by the zero
spread, the uniform interval collapses to a point) and in both vertex
modes. -/
theorem C8_zero_spread (geom : Geometry) (s : ActiveVolumeVertexSampler)
    (eng : Engine) (h : s.fSigmaT = 0) :
    (sample_vertex_pos geom s eng).1.T = s.fT0 := by
  rcases hvt : s.fVertexType <;> rcases htt : s.fTimeType <;>
    simp [sample_vertex_pos, hvt, htt, timeSample, uniformReal, normalSample,
      TLorentzVector.SetXYZT, TLorentzVector.SetT, h]

/-- Witness for C8_zero_spread at a Gaussian-mode zero-spread sampler. -/
theorem C8_zero_spread_witness :
    (sample_vertex_pos geomOne gaussZeroSpreadState engLin).1.T =
      gaussZeroSpreadState.fT0 :=
  C8_zero_spread geomOne gaussZeroSpreadState engLin rfl

/-- Claim C9: in Fixed mode a call performs no position sampling — it
consumes exactly the one time draw — and changes only the time component of
the stored vertex: the cached (x, y, z) are unchanged and are the returned
coordinates, every other member is untouched, and t is redrawn from the
engine on each call. -/
theorem C9_fixed_frame (geom : Geometry) (s : ActiveVolumeVertexSampler)
    (eng : Engine) (h : s.fVertexType = vertex_type_t.kFixed) :
    (sample_vertex_pos geom s eng).2.1.fVertexPosition.X =
      s.fVertexPosition.X ∧
    (sample_vertex_pos geom s eng).2.1.fVertexPosition.Y =
      s.fVertexPosition.Y ∧
    (sample_vertex_pos geom s eng).2.1.fVertexPosition.Z =
      s.fVertexPosition.Z ∧
    (sample_vertex_pos geom s eng).1.X = s.fVertexPosition.X ∧
    (sample_vertex_pos geom s eng).1.Y = s.fVertexPosition.Y ∧
    (sample_vertex_pos geom s eng).1.Z = s.fVertexPosition.Z ∧
    (sample_vertex_pos geom s eng).2.1.fVertexType = s.fVertexType ∧
    (sample_vertex_pos geom s eng).2.1.fTimeType = s.fTimeType ∧
    (sample_vertex_pos geom s eng).2.1.fT0 = s.fT0 ∧
    (sample_vertex_pos geom s eng).2.1.fSigmaT = s.fSigmaT ∧
    (sample_vertex_pos geom s eng).2.1.fTPCDist = s.fTPCDist ∧
    (sample_vertex_pos geom s eng).2.2.pos = eng.pos + 1 ∧
    (sample_vertex_pos geom s eng).1.T =
      timeSample s.fTimeType s.fT0 s.fSigmaT (eng.stream eng.pos) := by
  simp [sample_vertex_pos, h, TLorentzVector.SetT]

/-- Witness for C9_fixed_frame at the concrete Fixed-mode sampler. -/
theorem C9_fixed_frame_witness :
    (sample_vertex_pos geomOne priorFixedState engLin).2.1.fVertexPosition.X =
      priorFixedState.fVertexPosition.X ∧
    (sample_vertex_pos geomOne priorFixedState engLin).2.1.fVertexPosition.Y =
      priorFixedState.fVertexPosition.Y ∧
    (sample_vertex_pos geomOne priorFixedState engLin).2.1.fVertexPosition.Z =
      priorFixedState.fVertexPosition.Z ∧
    (sample_vertex_pos geomOne priorFixedState engLin).1.X =
      priorFixedState.fVertexPosition.X ∧
    (sample_vertex_pos geomOne priorFixedState engLin).1.Y =
      priorFixedState.fVertexPosition.Y ∧
    (sample_vertex_pos geomOne priorFixedState engLin).1.Z =
      priorFixedState.fVertexPosition.Z ∧
    (sample_vertex_pos geomOne priorFixedState engLin).2.1.fVertexType =
      priorFixedState.fVertexType ∧
    (sample_vertex_pos geomOne priorFixedState engLin).2.1.fTimeType =
      priorFixedState.fTimeType ∧
    (sample_vertex_pos geomOne priorFixedState engLin).2.1.fT0 =
      priorFixedState.fT0 ∧
    (sample_vertex_pos geomOne priorFixedState engLin).2.1.fSigmaT =
      priorFixedState.fSigmaT ∧
    (sample_vertex_pos geomOne priorFixedState engLin).2.1.fTPCDist =
      priorFixedState.fTPCDist ∧
    (sample_vertex_pos geomOne priorFixedState engLin).2.2.pos =
      engLin.pos + 1 ∧
    (sample_vertex_pos geomOne priorFixedState engLin).1.T =
      timeSample priorFixedState.fTimeType priorFixedState.fT0
        priorFixedState.fSigmaT (engLin.stream engLin.pos) :=
  C9_fixed_frame geomOne priorFixedState engLin rfl

/-- Claim C10: two fixed-mode configurations that agree on everything
except the second and third position components produce identical runs:
because reconfigure reads only position.at(0), those components never
influence any output. -/
theorem C10_position_noninterference (c1 c2 : Config) (geom : Geometry)
    (stream : ℕ → ℚ) (n : ℕ)
    (h1 : c1.type_ = "fixed") (h2 : c2.type_ = "fixed")
    (hp : c1.position_.c0 = c2.position_.c0)
    (hT : c1.T0_ = c2.T0_) (hS : c1.SigmaT_ = c2.SigmaT_)
    (htt : c1.time_type_ = c2.time_type_) :
    runSampler c1 geom stream n = runSampler c2 geom stream n := by
  have key : reconfigure c1 geom initState = reconfigure c2 geom initState := by
    simp only [reconfigure, reconfigureTime, h1, h2, Vec3.get, hp, hT, hS, htt]
  unfold runSampler mkSampler
  rw [key]

/-- Witness for C10_position_noninterference: fixed positions (1,2,3) and
(1,9,9) give identical two-call runs. -/
theorem C10_position_noninterference_witness :
    runSampler cfgFixed123 geomOne (fun k => (k : ℚ) / 10) 2 =
      runSampler cfgFixed199 geomOne (fun k => (k : ℚ) / 10) 2 :=
  C10_position_noninterference cfgFixed123 cfgFixed199 geomOne
    (fun k => (k : ℚ) / 10) 2 (by decide) (by decide) (by decide) (by decide)
    (by decide) (by decide)

end evgen
